import Mathlib

/-!
Shallow embedding of `crypto_dashboard.py` (a terminal crypto price
dashboard polling the CoinGecko API) and verification of its
specification claims.

Modelling conventions:
- Python `float` values carried in JSON are modelled as `ℚ`.  Python's
  `%.2f` formatting rounds the underlying binary float half-to-even; over
  `ℚ` we model it as round-half-up, which agrees on every value whose
  rounding is not an exact decimal tie.
- Python exceptions that the program does not catch (`AttributeError`,
  `TypeError`, `ValueError`) are modelled with `Except PyError`; an
  `Except.error` result of a loop cycle means the exception propagates out
  of `CryptoDashboard.run` (whose `try` catches only `KeyboardInterrupt`)
  and terminates the process.
- `requests` exceptions are modelled by the `NetworkOutcome` of the one
  HTTP attempt; `response.json()` parse failures raise
  `requests.exceptions.JSONDecodeError`, a subclass of `RequestException`,
  hence are caught by the final `except` clause of `fetch_prices`.
-/

namespace CryptoDash

/-- ANSI color codes, from class `Colors`. `\x1B` is ESC (`\033`). -/
def Colors.GREEN : String := "\x1B[92m"

/-- ANSI red. -/
def Colors.RED : String := "\x1B[91m"

/-- ANSI reset. -/
def Colors.RESET : String := "\x1B[0m"

/-- ANSI bold. -/
def Colors.BOLD : String := "\x1B[1m"

/-- Application configuration, from dataclass `Config`.  `update_interval`
is an `Int` because `argparse` with `type=int` accepts negative values. -/
structure Config where
  coins : List String
  update_interval : Int := 10
  api_base_url : String := "https://api.coingecko.com/api/v3"
  request_timeout : Int := 10
  deriving Repr, DecidableEq

/-- JSON values, the possible results of `response.json()`. -/
inductive JValue where
  | jnull : JValue
  | jbool : Bool → JValue
  | jnum : ℚ → JValue
  | jstr : String → JValue
  | jarr : List JValue → JValue
  | jobj : List (String × JValue) → JValue

/-- Uncaught Python exception kinds relevant to this program. -/
inductive PyError where
  | attributeError : PyError
  | typeError : PyError
  | valueError : PyError
  deriving Repr, DecidableEq

/-- First binding of a key in an object's field list (Python dict keys are
unique, so first match is the binding). -/
def jlookup : List (String × JValue) → String → Option JValue
  | [], _ => none
  | (k, v) :: rest, key => if k = key then some v else jlookup rest key

/-- Python `d.get(key, default)` on a dict. -/
def pyDictGet (fields : List (String × JValue)) (key : String) (dflt : JValue) : JValue :=
  (jlookup fields key).getD dflt

/-- Python truthiness of a JSON value (`if prices:`). -/
def truthy : JValue → Bool
  | .jnull => false
  | .jbool b => b
  | .jnum q => q != 0
  | .jstr s => s != ""
  | .jarr xs => !xs.isEmpty
  | .jobj fs => !fs.isEmpty

/-- Numeric coercion used by Python arithmetic and comparison against `0`:
numbers are themselves, `bool` is `0`/`1`, anything else raises
`TypeError` (e.g. `"x" > 0` or `None > 0`). -/
def pyNum : JValue → Except PyError ℚ
  | .jnum q => .ok q
  | .jbool b => .ok (if b then 1 else 0)
  | _ => .error .typeError

/-- Python `v > 0` for a JSON value. -/
def pyGtZero (v : JValue) : Except PyError Bool :=
  (pyNum v).map (fun q => decide (0 < q))

/-- Python `f"{s:>n}"`: left-pad with spaces up to width `n`. -/
def padLeft (n : Nat) (s : String) : String :=
  if s.length < n then String.mk (List.replicate (n - s.length) ' ') ++ s else s

/-- Python `f"{s:<n}"`: right-pad with spaces up to width `n`. -/
def padRight (n : Nat) (s : String) : String :=
  if s.length < n then s ++ String.mk (List.replicate (n - s.length) ' ') else s

/-- Python `str.capitalize()`: first character upper-cased, the rest
lower-cased. -/
def pyCapitalize (s : String) : String :=
  match s.data with
  | [] => ""
  | c :: rest => String.mk (c.toUpper :: rest.map Char.toLower)

/-- Insert a comma after every third character (input is the reversed
digit list of the integer part). -/
def group3 : List Char → List Char
  | a :: b :: c :: d :: rest => a :: b :: c :: ',' :: group3 (d :: rest)
  | l => l

/-- Thousands separators, Python's `,` format option on the integer part. -/
def commaSep (s : String) : String :=
  String.mk (group3 s.data.reverse).reverse

/-- The number of hundredths a nonnegative rational rounds to:
`⌊100 * q + 1/2⌋ = ⌊(200 * num + den) / (2 * den)⌋`, written over the
numerator and denominator so that it evaluates on concrete inputs. -/
def cents2 (q : ℚ) : Nat :=
  ((200 * q.num + (q.den : Int)) / (2 * (q.den : Int))).toNat

/-- Two-decimal rendering of a nonnegative rational, modelling `%.2f`
(both call sites in the source format values that are `> 0` or `abs`). -/
def fixed2 (q : ℚ) : String :=
  let cents := cents2 q
  let ip := cents / 100
  let fp := cents % 100
  toString ip ++ "." ++ (if fp < 10 then "0" ++ toString fp else toString fp)

/-- Python `f"{q:,.2f}"` for a nonnegative rational. -/
def commaFixed2 (q : ℚ) : String :=
  let cents := cents2 q
  let ip := cents / 100
  let fp := cents % 100
  commaSep (toString ip) ++ "." ++ (if fp < 10 then "0" ++ toString fp else toString fp)

/-- `CryptoDashboard.format_price_change`: arrow and color by sign of the
change, magnitude shown as `abs(change)` in a 7-wide two-decimal field. -/
def format_price_change (change : ℚ) : String :=
  let arrow := if 0 ≤ change then "↑" else "↓"
  let color := if 0 ≤ change then Colors.GREEN else Colors.RED
  color ++ arrow ++ " " ++ padLeft 7 (fixed2 |change|) ++ "%" ++ Colors.RESET

/-- One rendered table row: the three cells computed in the body of the
`for coin_id in self.config.coins` loop of `CryptoDashboard.display`. -/
structure Row where
  name : String
  priceCell : String
  changeCell : String
  deriving Repr, DecidableEq

/-- Body of the row loop of `CryptoDashboard.display` for one `coin_id`:
`data = prices.get(coin_id, {})`, `price = data.get("usd", 0)`,
`change = data.get("usd_24h_change", 0)`, then the two conditional cell
strings.  `prices.get` raises `AttributeError` unless `prices` is a dict,
and likewise for `data.get`; comparing a non-numeric `price` or `change`
with `0` raises `TypeError`. -/
def renderRow (prices : JValue) (coin_id : String) : Except PyError Row := do
  let fields ← match prices with
    | .jobj fs => Except.ok fs
    | _ => Except.error PyError.attributeError
  let data := pyDictGet fields coin_id (.jobj [])
  let dfields ← match data with
    | .jobj dfs => Except.ok dfs
    | _ => Except.error PyError.attributeError
  let price := pyDictGet dfields "usd" (.jnum 0)
  let change := pyDictGet dfields "usd_24h_change" (.jnum 0)
  let pricePositive ← pyGtZero price
  let price_str ← if pricePositive then do
      let q ← pyNum price
      Except.ok ("$" ++ commaFixed2 q)
    else Except.ok "N/A"
  let change_str ← if pricePositive then do
      let q ← pyNum change
      Except.ok (format_price_change q)
    else Except.ok "N/A"
  Except.ok ⟨pyCapitalize coin_id, price_str, change_str⟩

/-- The row loop of `CryptoDashboard.display`: one row per configured
coin, in configured order; the first raised exception aborts the loop. -/
def displayRows (prices : JValue) : List String → Except PyError (List Row)
  | [] => Except.ok []
  | c :: rest => do
    let r ← renderRow prices c
    let rs ← displayRows prices rest
    Except.ok (r :: rs)

/-- The bold `'=' * 60` separator line. -/
def sepLine : String := Colors.BOLD ++ String.mk (List.replicate 60 '=') ++ Colors.RESET

/-- The bold column-header line. -/
def headerLine : String :=
  Colors.BOLD ++ padRight 15 "Coin" ++ " " ++ padLeft 15 "Price (USD)" ++ " "
    ++ padLeft 15 "24h Change" ++ Colors.RESET

/-- The printed line of one row. -/
def rowLine (r : Row) : String :=
  padRight 15 r.name ++ " " ++ padLeft 15 r.priceCell ++ " " ++ padLeft 15 r.changeCell

/-- All lines printed by `CryptoDashboard.display` (after the screen
clear), with the wall-clock timestamp string passed explicitly.  The
`print(f"\nLast updated: ...")` call contributes an empty line and the
timestamp line. -/
def displayLines (coins : List String) (prices : JValue) (ts : String) :
    Except PyError (List String) := do
  let rows ← displayRows prices coins
  Except.ok ([sepLine, headerLine, sepLine] ++ rows.map rowLine
    ++ [sepLine, "", "Last updated: " ++ ts, "Press Ctrl+C to exit"])

/-- The table portion of a display output: everything except the two
timestamp-footer lines (`Last updated: ...` and `Press Ctrl+C to exit`). -/
def tableContent (lines : List String) : List String :=
  lines.dropLast.dropLast

/-- Outcome of the single network attempt inside `fetch_prices`'s `try`
block (`session.get`, `raise_for_status`, `response.json()`). -/
inductive NetworkOutcome where
  | ok : JValue → NetworkOutcome
  | timeout : NetworkOutcome
  | connectionError : NetworkOutcome
  | httpError : Int → NetworkOutcome
  | parseFailure : String → NetworkOutcome
  | otherError : String → NetworkOutcome

/-- Any of the five failure conditions. -/
def NetworkOutcome.isFailure : NetworkOutcome → Bool
  | .ok _ => false
  | _ => true

/-- What a call to `CoinGeckoAPI.fetch_prices` gives back: the returned
value and the error-log line it emitted, if any. -/
structure FetchReturn where
  result : Option JValue
  errorLog : Option String

/-- `CoinGeckoAPI.fetch_prices`: returns the parsed body on success and
`None` on every failure; each `except` clause only logs.  A JSON parse
failure raises `requests.exceptions.JSONDecodeError`, a subclass of
`RequestException`, so it is caught by the last clause. -/
def fetch_prices : NetworkOutcome → FetchReturn
  | .ok body => ⟨some body, none⟩
  | .timeout => ⟨none, some "Request timed out"⟩
  | .connectionError => ⟨none, some "Connection error - check your internet connection"⟩
  | .httpError code => ⟨none, some ("HTTP error: " ++ toString code)⟩
  | .parseFailure msg => ⟨none, some ("Request failed: " ++ msg)⟩
  | .otherError msg => ⟨none, some ("Request failed: " ++ msg)⟩

/-- Observable effects of one iteration of the `while True` loop in
`CryptoDashboard.run`. -/
structure CycleEffect where
  rendered : Option (List String)
  screenCleared : Bool
  notice : Option String
  warnedLog : Option String
  sleptSeconds : Int
  deriving Repr, DecidableEq

/-- Effects of the failure branch: no render, no screen clear, the
on-screen retry notice, a warning log, and the full interval slept. -/
def mkFailEffect (cfg : Config) : CycleEffect where
  rendered := none
  screenCleared := false
  notice := some ("Failed to fetch prices. Retrying in " ++ toString cfg.update_interval ++ "s...")
  warnedLog := some "Failed to fetch prices"
  sleptSeconds := cfg.update_interval

/-- `time.sleep(update_interval)`: raises `ValueError` when the argument
is negative, otherwise the cycle's effects stand and the loop continues. -/
def pysleep (cfg : Config) (e : CycleEffect) : Except PyError CycleEffect :=
  if cfg.update_interval < 0 then Except.error PyError.valueError else Except.ok e

/-- One iteration of `CryptoDashboard.run` given the value `fetch_prices`
returned: `if prices:` is Python truthiness, so `None` and every falsy
value (empty dict included) take the failure branch.  An `Except.error`
means an exception the `try` (which catches only `KeyboardInterrupt`)
does not handle: the loop and the process terminate. -/
def runCycle (cfg : Config) (ts : String) (fetched : Option JValue) :
    Except PyError CycleEffect :=
  match fetched with
  | none => pysleep cfg (mkFailEffect cfg)
  | some v =>
    if truthy v then
      match displayLines cfg.coins v ts with
      | .ok lines =>
        pysleep cfg
          { rendered := some lines, screenCleared := true, notice := none,
            warnedLog := none, sleptSeconds := cfg.update_interval }
      | .error e => .error e
    else pysleep cfg (mkFailEffect cfg)

/-- `n` iterations of the dashboard loop, driven by the network outcome
and timestamp of each cycle; stops early only if a cycle raises. -/
def runLoop (cfg : Config) (outs : Nat → NetworkOutcome) (ts : Nat → String) :
    Nat → Except PyError (List CycleEffect)
  | 0 => Except.ok []
  | n + 1 => do
    let prev ← runLoop cfg outs ts n
    let e ← runCycle cfg (ts n) (fetch_prices (outs n)).result
    Except.ok (prev ++ [e])

/-- Python `str.split(',')` over the character list: comma-separated
fields, with the empty string yielding one empty field. -/
def splitCommaAux : List Char → List Char → List (List Char)
  | [], acc => [acc.reverse]
  | c :: rest, acc =>
    if c = ',' then acc.reverse :: splitCommaAux rest []
    else splitCommaAux rest (c :: acc)

/-- Python `s.split(',')`. -/
def pySplitComma (s : String) : List String :=
  (splitCommaAux s.data []).map String.mk

/-- Python `str.strip()`: remove leading and trailing whitespace. -/
def pyStrip (s : String) : String :=
  String.mk (((s.data.dropWhile Char.isWhitespace).reverse.dropWhile
    Char.isWhitespace).reverse)

/-- `main`: parses `--coins` by splitting on commas and stripping each
token, builds the `Config`, and unconditionally proceeds to
`dashboard.run()` — there is no validation of the interval or the list. -/
def mainBuildConfig (coinsArg : String) (interval : Int) : Config where
  coins := (pySplitComma coinsArg).map pyStrip
  update_interval := interval

/-- A JSON field that is either absent or a plain number. -/
def NumericOrAbsent (v : Option JValue) : Prop :=
  v = none ∨ ∃ q : ℚ, v = some (.jnum q)

/-- The shapes of a per-asset response entry that `display` handles
without raising: the asset absent altogether, or an object whose `usd`
and `usd_24h_change` fields are each absent or numeric. -/
def WellFormedEntry : Option JValue → Prop
  | none => True
  | some (.jobj dfs) =>
    NumericOrAbsent (jlookup dfs "usd") ∧ NumericOrAbsent (jlookup dfs "usd_24h_change")
  | some _ => False

/-! ### Helper lemmas -/

/-- Bind on a success applies the continuation. -/
@[simp] theorem except_ok_bind {α β E : Type} (a : α) (f : α → Except E β) :
    (Except.ok a >>= f : Except E β) = f a := rfl

/-- Bind on an exception propagates it. -/
@[simp] theorem except_error_bind {α β E : Type} (e : E) (f : α → Except E β) :
    ((Except.error e : Except E α) >>= f) = Except.error e := rfl

/-- Every failure kind makes `fetch_prices` return `None`. -/
theorem fetch_prices_result_none_of_isFailure (o : NetworkOutcome)
    (h : o.isFailure = true) : (fetch_prices o).result = none := by
  cases o <;> simp_all [fetch_prices, NetworkOutcome.isFailure]

/-- A `None` fetch result takes the failure branch of the loop body. -/
theorem runCycle_none (cfg : Config) (ts : String)
    (h : 0 ≤ cfg.update_interval) :
    runCycle cfg ts none = Except.ok (mkFailEffect cfg) := by
  simp [runCycle, pysleep, not_lt.mpr h]

/-! ### Claims -/

/-- C1: on every Quote-Client failure kind the dashboard loop neither
terminates nor changes state: after any number `n` of consecutive failed
cycles the loop is still running and has executed exactly `n` identical
cycles, each rendering nothing, printing the visible
`Failed to fetch prices. Retrying in Ns...` notice, logging the warning,
and sleeping exactly the configured interval — no backoff, no retry
limit. -/
theorem loop_retries_forever_on_any_failure (cfg : Config)
    (outs : Nat → NetworkOutcome) (ts : Nat → String) (n : Nat)
    (hint : 0 ≤ cfg.update_interval)
    (hfail : ∀ k, (outs k).isFailure = true) :
    runLoop cfg outs ts n = Except.ok (List.replicate n (mkFailEffect cfg)) ∧
    (mkFailEffect cfg).rendered = none ∧
    (mkFailEffect cfg).notice =
      some ("Failed to fetch prices. Retrying in "
        ++ toString cfg.update_interval ++ "s...") ∧
    (mkFailEffect cfg).warnedLog = some "Failed to fetch prices" ∧
    (mkFailEffect cfg).sleptSeconds = cfg.update_interval := by
  refine ⟨?_, rfl, rfl, rfl, rfl⟩
  induction n with
  | zero => rfl
  | succ n ih =>
    rw [runLoop, ih, fetch_prices_result_none_of_isFailure _ (hfail n),
      runCycle_none cfg _ hint, List.replicate_succ']
    rfl

/-- C1 witness: three consecutive timeouts under the default configuration
leave the loop running with three identical retry cycles. -/
theorem loop_retries_forever_on_any_failure_witness :
    runLoop { coins := ["bitcoin"] } (fun _ => NetworkOutcome.timeout)
      (fun _ => "2026-01-01 00:00:00") 3 =
      Except.ok (List.replicate 3 (mkFailEffect { coins := ["bitcoin"] })) :=
  (loop_retries_forever_on_any_failure { coins := ["bitcoin"] }
    (fun _ => NetworkOutcome.timeout) (fun _ => "2026-01-01 00:00:00") 3
    (by decide) (fun _ => rfl)).1

/-- A coin absent from the response object renders as an `N/A` row (its
`data` defaults to the empty dict, so `price` defaults to `0`). -/
theorem renderRow_absent_coin (fs : List (String × JValue)) (coin : String)
    (h : jlookup fs coin = none) :
    renderRow (.jobj fs) coin = Except.ok ⟨pyCapitalize coin, "N/A", "N/A"⟩ := by
  simp [renderRow, pyDictGet, h, jlookup, pyGtZero, pyNum]
  rfl

/-- C2 counterexample: a successful fetch whose body is the empty JSON
object (no requested identifier present) is falsy under `if prices:`, so
the loop takes the failure branch — it renders nothing and prints the
failure notice, contradicting the claim that every successful fetch takes
the success path. -/
theorem empty_success_takes_failure_path :
    runCycle { coins := ["bitcoin"] } "2026-01-01 00:00:00" (some (.jobj [])) =
      Except.ok (mkFailEffect { coins := ["bitcoin"] }) ∧
    (mkFailEffect { coins := ["bitcoin"] }).rendered = none ∧
    (mkFailEffect { coins := ["bitcoin"] }).notice =
      some "Failed to fetch prices. Retrying in 10s..." := ⟨rfl, rfl, rfl⟩

/-- C2 (amended): a successful fetch whose QuoteSet is a *non-empty*
object (and renders without raising) takes the success path: the screen is
cleared, the full table is rendered with the `Last updated` timestamp, and
no failure notice is printed; an identifier missing from such a QuoteSet
is not a fetch failure — its row renders as `N/A`.  A successful fetch of
the *empty* mapping, however, is falsy under `if prices:` and takes the
failure path. -/
theorem nonempty_success_renders_table (cfg : Config) (ts : String)
    (fs : List (String × JValue)) (lines : List String)
    (hne : fs ≠ []) (hint : 0 ≤ cfg.update_interval)
    (hd : displayLines cfg.coins (.jobj fs) ts = Except.ok lines) :
    runCycle cfg ts (some (.jobj fs)) = Except.ok
      { rendered := some lines, screenCleared := true, notice := none,
        warnedLog := none, sleptSeconds := cfg.update_interval } ∧
    ("Last updated: " ++ ts) ∈ lines ∧
    ∀ coin ∈ cfg.coins, jlookup fs coin = none →
      renderRow (.jobj fs) coin = Except.ok ⟨pyCapitalize coin, "N/A", "N/A"⟩ := by
  refine ⟨?_, ?_, fun coin _ hc => renderRow_absent_coin fs coin hc⟩
  · have ht : truthy (.jobj fs) = true := by
      cases fs with
      | nil => exact absurd rfl hne
      | cons p ps => simp [truthy]
    simp [runCycle, ht, hd, pysleep, not_lt.mpr hint]
  · rcases hrows : displayRows (.jobj fs) cfg.coins with e | rows
    · simp [displayLines, hrows] at hd
    · simp only [displayLines, hrows, except_ok_bind, Except.ok.injEq] at hd
      subst hd
      simp

/-- C2 witness: a response containing only `bitcoin` while `ethereum` is
also configured renders the table, with an `N/A` row for `ethereum`. -/
theorem nonempty_success_renders_table_witness :
    runCycle { coins := ["ethereum"] } "t"
      (some (.jobj [("bitcoin", .jobj [("usd", .jnum 100)])])) = Except.ok
      { rendered := some [sepLine, headerLine, sepLine,
          rowLine ⟨"Ethereum", "N/A", "N/A"⟩, sepLine, "",
          "Last updated: t", "Press Ctrl+C to exit"],
        screenCleared := true, notice := none, warnedLog := none,
        sleptSeconds := 10 } ∧
    ("Last updated: t") ∈ [sepLine, headerLine, sepLine,
      rowLine ⟨"Ethereum", "N/A", "N/A"⟩, sepLine, "",
      "Last updated: t", "Press Ctrl+C to exit"] ∧
    ∀ coin ∈ ({ coins := ["ethereum"] } : Config).coins,
      jlookup [("bitcoin", .jobj [("usd", .jnum 100)])] coin = none →
      renderRow (.jobj [("bitcoin", .jobj [("usd", .jnum 100)])]) coin =
        Except.ok ⟨pyCapitalize coin, "N/A", "N/A"⟩ :=
  nonempty_success_renders_table { coins := ["ethereum"] } "t"
    [("bitcoin", .jobj [("usd", .jnum 100)])] _ (by simp) (by decide) rfl

/-- A well-formed per-asset entry never makes `renderRow` raise. -/
theorem renderRow_wellformed (fs : List (String × JValue)) (coin : String)
    (h : WellFormedEntry (jlookup fs coin)) :
    ∃ r, renderRow (.jobj fs) coin = Except.ok r := by
  rcases hl : jlookup fs coin with _ | v
  · exact ⟨_, renderRow_absent_coin fs coin hl⟩
  · rw [hl] at h
    cases v with
    | jobj dfs =>
      obtain ⟨hu, hc⟩ := h
      rcases hu with hu | ⟨qu, hu⟩ <;> rcases hc with hc | ⟨qc, hc⟩ <;>
      · simp only [renderRow, except_ok_bind, pyDictGet, hl, hu, hc, Option.getD,
          pyGtZero, pyNum, Except.map]
        split <;> exact ⟨_, rfl⟩
    | jnull => exact h.elim
    | jbool b => exact h.elim
    | jnum q => exact h.elim
    | jstr s => exact h.elim
    | jarr xs => exact h.elim

/-- A response object whose entries are all well-formed renders every
configured coin without raising. -/
theorem displayRows_wellformed (fs : List (String × JValue)) (coins : List String)
    (h : ∀ c ∈ coins, WellFormedEntry (jlookup fs c)) :
    ∃ rows, displayRows (.jobj fs) coins = Except.ok rows := by
  induction coins with
  | nil => exact ⟨[], rfl⟩
  | cons c cs ih =>
    obtain ⟨r, hr⟩ := renderRow_wellformed fs c (h c (by simp))
    obtain ⟨rows, hrows⟩ := ih (fun x hx => h x (by simp [hx]))
    exact ⟨r :: rows, by simp [displayRows, hr, hrows]⟩

/-- C3 counterexample: a body that parses as JSON but is not an object —
here the truthy array `[1]` — or an object with a malformed (non-object)
per-asset value reaches `prices.get` / `data.get` on a non-dict and
raises an uncaught `AttributeError`, terminating the loop; the claim that
no such input raises an unhandled exception is false. -/
theorem truthy_nonobject_body_crashes_loop :
    truthy (.jarr [.jnum 1]) = true ∧
    runCycle { coins := ["bitcoin"] } "t" (some (.jarr [.jnum 1])) =
      Except.error PyError.attributeError ∧
    runCycle { coins := ["bitcoin"] } "t" (some (.jobj [("bitcoin", .jnum 5)])) =
      Except.error PyError.attributeError := ⟨rfl, rfl, rfl⟩

/-- C3 (amended): for every response body that parses as a JSON *object*
whose per-asset values are absent, or objects with absent-or-numeric
price/change fields, the cycle completes without raising (absent data
renders as `N/A` per the other rendering claims); but a truthy top-level
non-object value, or a non-object per-asset value, raises an unhandled
`AttributeError` that terminates the loop. -/
theorem wellformed_body_never_crashes (cfg : Config) (ts : String)
    (fs : List (String × JValue)) (hint : 0 ≤ cfg.update_interval)
    (hwf : ∀ c ∈ cfg.coins, WellFormedEntry (jlookup fs c)) :
    ∃ eff, runCycle cfg ts (some (.jobj fs)) = Except.ok eff := by
  rcases ht : truthy (.jobj fs) with _ | _
  · exact ⟨mkFailEffect cfg, by simp [runCycle, ht, pysleep, not_lt.mpr hint]⟩
  · obtain ⟨rows, hrows⟩ := displayRows_wellformed fs cfg.coins hwf
    refine ⟨⟨some ([sepLine, headerLine, sepLine] ++ rows.map rowLine
      ++ [sepLine, "", "Last updated: " ++ ts, "Press Ctrl+C to exit"]),
      true, none, none, cfg.update_interval⟩, ?_⟩
    simp [runCycle, ht, displayLines, hrows, pysleep, not_lt.mpr hint]

/-- C3 witness: a body holding one well-formed entry for `bitcoin` while
`ethereum` is absent completes the cycle without raising. -/
theorem wellformed_body_never_crashes_witness :
    ∃ eff, runCycle { coins := ["bitcoin", "ethereum"] } "t"
      (some (.jobj [("bitcoin", .jobj [("usd", .jnum 100)])])) = Except.ok eff :=
  wellformed_body_never_crashes { coins := ["bitcoin", "ethereum"] } "t"
    [("bitcoin", .jobj [("usd", .jnum 100)])] (by decide)
    (fun c hc => by
      cases hc with
      | head => exact ⟨Or.inr ⟨100, rfl⟩, Or.inl rfl⟩
      | tail _ hc =>
        cases hc with
        | head => trivial
        | tail _ hc => cases hc)

/-- C4 counterexample: every one of the five failure conditions makes
`fetch_prices` return the very same untagged value `None`; in particular a
timeout and a connection failure are indistinguishable to the caller, so
failures are *not* returned as a tagged result the caller can inspect. -/
theorem failure_kinds_collapse_to_none :
    (fetch_prices NetworkOutcome.timeout).result = none ∧
    (fetch_prices NetworkOutcome.connectionError).result = none ∧
    (fetch_prices (NetworkOutcome.httpError 500)).result = none ∧
    (fetch_prices (NetworkOutcome.parseFailure "bad json")).result = none ∧
    (fetch_prices (NetworkOutcome.otherError "boom")).result = none ∧
    (fetch_prices NetworkOutcome.timeout).result =
      (fetch_prices NetworkOutcome.connectionError).result :=
  ⟨rfl, rfl, rfl, rfl, rfl, rfl⟩

/-- C4 (amended): the failure conditions are distinguished only in the
client's log output — timeout, connection failure, and HTTP status (with
its code) each get their own message, while a parse failure is caught by
the generic `RequestException` clause and shares the `Request failed`
message shape with other transport errors — and the value returned to the
caller is the single undifferentiated `None` for every failure kind. -/
theorem failures_logged_distinctly_returned_untagged (code : Int) (pmsg omsg : String) :
    (fetch_prices NetworkOutcome.timeout).result = none ∧
    (fetch_prices NetworkOutcome.connectionError).result = none ∧
    (fetch_prices (NetworkOutcome.httpError code)).result = none ∧
    (fetch_prices (NetworkOutcome.parseFailure pmsg)).result = none ∧
    (fetch_prices (NetworkOutcome.otherError omsg)).result = none ∧
    (fetch_prices NetworkOutcome.timeout).errorLog = some "Request timed out" ∧
    (fetch_prices NetworkOutcome.connectionError).errorLog =
      some "Connection error - check your internet connection" ∧
    (fetch_prices (NetworkOutcome.httpError code)).errorLog =
      some ("HTTP error: " ++ toString code) ∧
    (fetch_prices (NetworkOutcome.parseFailure pmsg)).errorLog =
      some ("Request failed: " ++ pmsg) ∧
    (fetch_prices (NetworkOutcome.otherError omsg)).errorLog =
      some ("Request failed: " ++ omsg) ∧
    (fetch_prices (NetworkOutcome.parseFailure pmsg)).errorLog =
      (fetch_prices (NetworkOutcome.otherError pmsg)).errorLog :=
  ⟨rfl, rfl, rfl, rfl, rfl, rfl, rfl, rfl, rfl, rfl, rfl⟩

/-- C5: whenever the `usd` price field is absent, zero, or negative, both
the price cell and the change cell of that row render as `N/A`, whatever
the `usd_24h_change` entry holds (positive, negative, zero, absent, or
malformed — the entry list `dfs` is unconstrained). -/
theorem nonpositive_price_renders_na (fs dfs : List (String × JValue)) (coin : String)
    (hdata : jlookup fs coin = some (.jobj dfs))
    (hprice : jlookup dfs "usd" = none ∨
      ∃ q : ℚ, jlookup dfs "usd" = some (.jnum q) ∧ q ≤ 0) :
    renderRow (.jobj fs) coin = Except.ok ⟨pyCapitalize coin, "N/A", "N/A"⟩ := by
  rcases hprice with hu | ⟨q, hu, hq⟩
  · simp only [renderRow, except_ok_bind, pyDictGet, hdata, hu, Option.getD,
      pyGtZero, pyNum, Except.map]
    rfl
  · simp only [renderRow, except_ok_bind, pyDictGet, hdata, hu, Option.getD,
      pyGtZero, pyNum, Except.map]
    simp [not_lt.mpr hq]

/-- C5 witness: a negative price with a malformed (string) change value
still renders as a pure `N/A` row without raising. -/
theorem nonpositive_price_renders_na_witness :
    renderRow (.jobj [("dogecoin", .jobj [("usd", .jnum (mkRat (-5) 1)),
      ("usd_24h_change", .jstr "oops")])]) "dogecoin" =
      Except.ok ⟨pyCapitalize "dogecoin", "N/A", "N/A"⟩ :=
  nonpositive_price_renders_na _ _ "dogecoin" rfl
    (Or.inr ⟨mkRat (-5) 1, rfl, by decide⟩)

/-- C6: for a present numeric change, `format_price_change` renders the
up arrow in green when the change is nonnegative and the down arrow in red
when it is negative, and in both cases the number shown is the absolute
value of the change in the two-decimal 7-wide field. -/
theorem format_change_sign_direction (change : ℚ) :
    (0 ≤ change → format_price_change change =
      Colors.GREEN ++ "↑" ++ " " ++ padLeft 7 (fixed2 change) ++ "%" ++ Colors.RESET) ∧
    (change < 0 → format_price_change change =
      Colors.RED ++ "↓" ++ " " ++ padLeft 7 (fixed2 (-change)) ++ "%" ++ Colors.RESET) := by
  constructor
  · intro h
    simp [format_price_change, h, abs_of_nonneg h]
  · intro h
    simp [format_price_change, not_le.mpr h, abs_of_neg h]

/-- C6 witness: a change of `1.23` renders green with the up arrow, and a
change of `-1.23` renders red with the down arrow showing `1.23`. -/
theorem format_change_sign_direction_witness :
    format_price_change (mkRat 123 100) =
      Colors.GREEN ++ "↑" ++ " " ++ padLeft 7 (fixed2 (mkRat 123 100)) ++ "%" ++ Colors.RESET ∧
    format_price_change (mkRat (-123) 100) =
      Colors.RED ++ "↓" ++ " " ++ padLeft 7 (fixed2 (-(mkRat (-123) 100))) ++ "%" ++ Colors.RESET ∧
    fixed2 (mkRat 123 100) = "1.23" :=
  ⟨(format_change_sign_direction (mkRat 123 100)).1 (by decide),
   (format_change_sign_direction (mkRat (-123) 100)).2 (by decide), rfl⟩

/-- The row loop yields exactly one row per coin, in order: row `i` is the
rendering of coin `i`. -/
theorem displayRows_length_and_get (prices : JValue) :
    ∀ (coins : List String) (rows : List Row),
    displayRows prices coins = Except.ok rows →
    rows.length = coins.length ∧
    ∀ (i : Nat) (hi : i < coins.length) (hri : i < rows.length),
      renderRow prices (coins.get ⟨i, hi⟩) = Except.ok (rows.get ⟨i, hri⟩) := by
  intro coins
  induction coins with
  | nil =>
    intro rows h
    simp only [displayRows, Except.ok.injEq] at h
    subst h
    exact ⟨rfl, fun i hi _ => absurd hi (Nat.not_lt_zero i)⟩
  | cons c cs ih =>
    intro rows h
    rcases hr : renderRow prices c with e | r
    · simp only [displayRows, hr, except_error_bind] at h
      exact Except.noConfusion h
    · rcases hrs : displayRows prices cs with e | rs
      · simp only [displayRows, hr, hrs, except_ok_bind, except_error_bind] at h
        exact Except.noConfusion h
      · simp only [displayRows, hr, hrs, except_ok_bind, Except.ok.injEq] at h
        subst h
        obtain ⟨hlen, hget⟩ := ih rs hrs
        refine ⟨by simp [hlen], fun i hi hri => ?_⟩
        cases i with
        | zero => simpa using hr
        | succ j => simpa using hget j (by simpa using hi) (by simpa using hri)

/-- C7: for a non-empty configured identifier list, rendering produces
exactly one row per configured identifier, in configured order — row `i`
is the rendering of coin `i`, with no row added, dropped, sorted, or
filtered by data availability. -/
theorem one_row_per_coin_in_order (prices : JValue) (coins : List String)
    (rows : List Row) (_hne : coins ≠ [])
    (h : displayRows prices coins = Except.ok rows) :
    rows.length = coins.length ∧
    ∀ (i : Nat) (hi : i < coins.length) (hri : i < rows.length),
      renderRow prices (coins.get ⟨i, hi⟩) = Except.ok (rows.get ⟨i, hri⟩) :=
  displayRows_length_and_get prices coins rows h

/-- C7 witness: the spec's own example — `bitcoin` with data and
`ethereum` with an empty entry — yields exactly the two rows, in order. -/
theorem one_row_per_coin_in_order_witness :
    (["bitcoin", "ethereum"] : List String) ≠ [] ∧
    (([⟨"Bitcoin", "$65,000.50", "\x1B[92m↑    1.23%\x1B[0m"⟩,
       ⟨"Ethereum", "N/A", "N/A"⟩] : List Row).length
        = (["bitcoin", "ethereum"] : List String).length ∧
     ∀ (i : Nat) (hi : i < (["bitcoin", "ethereum"] : List String).length)
       (hri : i < ([⟨"Bitcoin", "$65,000.50", "\x1B[92m↑    1.23%\x1B[0m"⟩,
         ⟨"Ethereum", "N/A", "N/A"⟩] : List Row).length),
       renderRow (.jobj [("bitcoin", .jobj [("usd", .jnum (mkRat 650005 10)),
           ("usd_24h_change", .jnum (mkRat 123 100))]), ("ethereum", .jobj [])])
         ((["bitcoin", "ethereum"] : List String).get ⟨i, hi⟩) =
       Except.ok (([⟨"Bitcoin", "$65,000.50", "\x1B[92m↑    1.23%\x1B[0m"⟩,
         ⟨"Ethereum", "N/A", "N/A"⟩] : List Row).get ⟨i, hri⟩)) :=
  ⟨by decide, one_row_per_coin_in_order _ _ _ (by decide) rfl⟩

/-- C8 counterexample: with a positive price and an *absent*
`usd_24h_change` field, the change cell is `format_price_change 0` — the
green up-arrow `0.00` rendering — which is not `N/A` and is exactly equal
to the rendering produced when the change value is explicitly zero; the
claimed "not available, distinct from zero" behavior is false. -/
theorem absent_change_renders_like_zero :
    renderRow (.jobj [("bitcoin", .jobj [("usd", .jnum 100)])]) "bitcoin" =
      Except.ok ⟨"Bitcoin", "$100.00", format_price_change 0⟩ ∧
    format_price_change 0 ≠ "N/A" ∧
    renderRow (.jobj [("bitcoin", .jobj [("usd", .jnum 100)])]) "bitcoin" =
      renderRow (.jobj [("bitcoin", .jobj [("usd", .jnum 100),
        ("usd_24h_change", .jnum 0)])]) "bitcoin" :=
  ⟨rfl, by decide, rfl⟩

/-- C8 (amended): with a positive price and an absent `usd_24h_change`
field, the change cell renders as the zero-change rendering (the absent
field defaults to `0`), identical to an explicit zero change and distinct
from `N/A`. -/
theorem absent_change_defaults_to_zero (fs dfs : List (String × JValue))
    (coin : String) (q : ℚ)
    (hdata : jlookup fs coin = some (.jobj dfs))
    (husd : jlookup dfs "usd" = some (.jnum q)) (hq : 0 < q)
    (hch : jlookup dfs "usd_24h_change" = none) :
    renderRow (.jobj fs) coin =
      Except.ok ⟨pyCapitalize coin, "$" ++ commaFixed2 q, format_price_change 0⟩ ∧
    format_price_change 0 ≠ "N/A" := by
  refine ⟨?_, by decide⟩
  simp only [renderRow, except_ok_bind, pyDictGet, hdata, husd, hch, Option.getD,
    pyGtZero, pyNum, Except.map]
  simp [hq]

/-- C8 witness: `bitcoin` priced at `100` with no change field renders the
zero-change cell. -/
theorem absent_change_defaults_to_zero_witness :
    renderRow (.jobj [("bitcoin", .jobj [("usd", .jnum 100)])]) "bitcoin" =
      Except.ok ⟨pyCapitalize "bitcoin", "$" ++ commaFixed2 100, format_price_change 0⟩ ∧
    format_price_change 0 ≠ "N/A" :=
  absent_change_defaults_to_zero [("bitcoin", .jobj [("usd", .jnum 100)])]
    [("usd", .jnum 100)] "bitcoin" 100 rfl rfl (by norm_num) rfl

/-- Dropping the two footer lines from a rendered display leaves the
table: header block, rows, and closing separator plus blank line. -/
theorem tableContent_display (pre m : List String) (a b c d : String) :
    tableContent (pre ++ m ++ [a, b, c, d]) = pre ++ m ++ [a, b] := by
  have h1 : pre ++ m ++ [a, b, c, d] = (pre ++ m ++ [a, b, c]) ++ [d] := by simp
  have h2 : pre ++ m ++ [a, b, c] = (pre ++ m ++ [a, b]) ++ [c] := by simp
  simp only [tableContent, h1, List.dropLast_concat, h2]

/-- C9: rendering is deterministic given a QuoteSet — two renders of the
same QuoteSet at different wall-clock times produce identical table
content (header, rows, separators), differing only in the timestamp
footer that `tableContent` ignores. -/
theorem table_content_timestamp_independent (coins : List String)
    (prices : JValue) (t1 t2 : String) :
    Except.map tableContent (displayLines coins prices t1) =
      Except.map tableContent (displayLines coins prices t2) := by
  rcases h : displayRows prices coins with e | rows
  · simp [displayLines, h, Except.map]
  · simp only [displayLines, h, except_ok_bind, Except.map]
    rw [tableContent_display, tableContent_display]

/-- C10 counterexample: `main` builds the configuration from an interval
of `0` and proceeds into the loop, whose failure cycle sleeps `0`
seconds — the configuration is not rejected at startup and the program
does loop at maximum speed, so the claimed startup validation is false. -/
theorem zero_interval_reaches_loop :
    (mainBuildConfig "bitcoin,ethereum" 0).update_interval = 0 ∧
    runCycle (mainBuildConfig "bitcoin,ethereum" 0) "t" none =
      Except.ok (mkFailEffect (mainBuildConfig "bitcoin,ethereum" 0)) ∧
    (mkFailEffect (mainBuildConfig "bitcoin,ethereum" 0)).sleptSeconds = 0 :=
  ⟨rfl, rfl, rfl⟩

/-- C10 (amended): `main` performs no startup validation: every interval,
zero and negative included, is accepted into the `Config` and the loop is
entered (a zero interval makes cycles sleep `0` seconds; a negative
interval makes the first `time.sleep` raise `ValueError`), and an empty
`--coins` argument yields the single empty-string identifier rather than
a rejection. -/
theorem main_performs_no_validation (coinsArg : String) (interval : Int)
    (ts : String) :
    (mainBuildConfig coinsArg interval).update_interval = interval ∧
    (mainBuildConfig "" interval).coins = [""] ∧
    (interval = 0 → runCycle (mainBuildConfig coinsArg interval) ts none =
      Except.ok (mkFailEffect (mainBuildConfig coinsArg interval)) ∧
      (mkFailEffect (mainBuildConfig coinsArg interval)).sleptSeconds = 0) ∧
    (interval < 0 → runCycle (mainBuildConfig coinsArg interval) ts none =
      Except.error PyError.valueError) := by
  refine ⟨rfl, rfl, fun h0 => ⟨?_, by simp [mkFailEffect, mainBuildConfig, h0]⟩,
    fun hneg => ?_⟩
  · exact runCycle_none _ _ (le_of_eq h0.symm)
  · simp [runCycle, pysleep, mainBuildConfig, hneg]

/-- C10 witness: interval `0` reaches a zero-sleep loop cycle, and
interval `-7` reaches the loop and raises `ValueError` at the sleep. -/
theorem main_performs_no_validation_witness :
    (runCycle (mainBuildConfig "bitcoin" 0) "t" none =
       Except.ok (mkFailEffect (mainBuildConfig "bitcoin" 0)) ∧
     (mkFailEffect (mainBuildConfig "bitcoin" 0)).sleptSeconds = 0) ∧
    runCycle (mainBuildConfig "bitcoin" (-7)) "t" none =
      Except.error PyError.valueError :=
  ⟨(main_performs_no_validation "bitcoin" 0 "t").2.2.1 rfl,
   (main_performs_no_validation "bitcoin" (-7) "t").2.2.2 (by decide)⟩

end CryptoDash
